import Mathlib

set_option maxRecDepth 10000

/-! Shallow embedding of the Medical-Doctor-Assistant repository
(src/rag_chat.py and src/vector_store.py). Python strings are modelled
as Lean `String` (lists of characters / code points); Python builtins
(`str.strip`, `str.split`, `str.lower`, `str.title`, slicing, `in`,
`str.join`, `range`) are modelled by the executable helpers below,
restricted to the ASCII texts this program manipulates. -/

/-- Whitespace characters recognised by Python's `str.strip` / `str.split`
(ASCII fragment). -/
def isPyWs (c : Char) : Bool :=
  c == ' ' || c == '\t' || c == '\n' || c == '\r' || c == '\x0b' || c == '\x0c'

/-- Drop matching characters from the end of a character list. -/
def dropEndWhile (p : Char → Bool) (l : List Char) : List Char :=
  (l.reverse.dropWhile p).reverse

/-- Trim characters satisfying `p` from both ends (Python `str.strip`). -/
def trimWith (p : Char → Bool) (l : List Char) : List Char :=
  dropEndWhile p (l.dropWhile p)

/-- Python `s.strip()` (whitespace trim on both ends). -/
def pyStrip (s : String) : String := String.mk (trimWith isPyWs s.toList)

/-- Python `s.strip(c)` for a single-character strip set. -/
def stripEnds (c : Char) (s : String) : String :=
  String.mk (trimWith (fun x => x == c) s.toList)

/-- Python `s.lower()` (ASCII case fold). -/
def pyLower (s : String) : String := String.mk (s.toList.map Char.toLower)

/-- Python `s[:n]` (first `n` code points). -/
def pyTake (n : Nat) (s : String) : String := String.mk (s.toList.take n)

/-- Auxiliary accumulator for `pySplit`. -/
def pySplitAux : List Char → List Char → List String
  | [], acc => if acc.isEmpty then [] else [String.mk acc.reverse]
  | c :: cs, acc =>
    if isPyWs c then
      if acc.isEmpty then pySplitAux cs []
      else String.mk acc.reverse :: pySplitAux cs []
    else pySplitAux cs (c :: acc)

/-- Python `s.split()` with no argument: split on whitespace runs,
discarding empty pieces. -/
def pySplit (s : String) : List String := pySplitAux s.toList []

/-- Does the haystack start with the needle? -/
def leadsWith : List Char → List Char → Bool
  | [], _ => true
  | _ :: _, [] => false
  | a :: as, b :: bs => a == b && leadsWith as bs

/-- Python `needle in haystack` (substring containment). -/
def containsSub : List Char → List Char → Bool
  | [], needle => needle.isEmpty
  | c :: t, needle => leadsWith needle (c :: t) || containsSub t needle

/-- Python `sep.join(parts)`. -/
def joinWith (sep : String) : List String → String
  | [] => ""
  | [x] => x
  | x :: y :: rest => x ++ sep ++ joinWith sep (y :: rest)

/-- Python `sep` split for a one-character separator, keeping empty pieces
(`s.split(":")` semantics). -/
def splitOnChar (sep : Char) : List Char → List (List Char)
  | [] => [[]]
  | c :: cs =>
    let r := splitOnChar sep cs
    if c == sep then [] :: r
    else
      match r with
      | [] => [[c]]
      | h :: t => (c :: h) :: t

/-- Helper for Python `str.title`: the boolean tracks whether the previous
character was a letter. -/
def pyTitleAux : Bool → List Char → List Char
  | _, [] => []
  | prevAlpha, c :: cs =>
    let c' := if c.isAlpha then (if prevAlpha then c.toLower else c.toUpper) else c
    c' :: pyTitleAux c.isAlpha cs

/-- Python `s.title()` (ASCII). -/
def pyTitle (s : String) : String := String.mk (pyTitleAux false s.toList)

/-- Python `range(0, stop, step)` for `step > 0`. -/
def pyRangeStep (stop step : Nat) : List Nat :=
  (List.range ((stop + step - 1) / step)).map (fun k => step * k)

/-- The batches visited by `for i in range(0, len(l), bs): l[i:i+bs]`. -/
def pyBatches (bs : Nat) (l : List α) : List (List α) :=
  (pyRangeStep l.length bs).map (fun i => (l.drop i).take bs)

/-! ## rag_chat.py -/

/-- Greeting vocabulary of `is_greeting` (src/rag_chat.py lines 10-11). -/
def greetings : List String :=
  ["hi", "hello", "hey", "good morning", "good afternoon", "good evening",
   "greetings", "howdy", "hi there", "hello there"]

/-- `is_greeting` (src/rag_chat.py lines 8-16): substring check on the
lowercased/trimmed text, or at most 3 punctuation-stripped words with one
of them in the small greeting set. -/
def is_greeting (text : String) : Bool :=
  let text_lower := pyStrip (pyLower text)
  let text_clean := String.mk (text_lower.toList.filter (fun c => c.isAlphanum || isPyWs c))
  let words := pySplit text_clean
  greetings.any (fun g => containsSub text_lower.toList g.toList) ||
    (words.length ≤ 3 && ["hi", "hello", "hey"].any (fun g => words.contains g))

/-- Question/request keywords of `has_question` (src/rag_chat.py line 20). -/
def question_words : List String :=
  ["what", "which", "when", "where", "who", "why", "how", "about", "tell",
   "give", "show", "explain", "describe", "assist", "help", "need", "want",
   "can you", "could you", "please"]

/-- The question-mark character. -/
def qmarkChar : Char := '?'

/-- `has_question` (src/rag_chat.py lines 18-34). -/
def has_question (text : String) : Bool :=
  let text_lower := pyStrip (pyLower text)
  let words := pySplit text_lower
  if words.length ≤ 2 then false
  else
    let has_question_mark := containsSub text.toList [qmarkChar]
    let has_question_word := question_words.any (fun qw => containsSub text_lower.toList qw.toList)
    has_question_mark || has_question_word || decide (words.length > 2)

/-- A JSON object (Python dict with string values), as used for product
records: association list with first-key-wins lookup. -/
def Doc := List (String × String)

/-- Python `doc.get(k)`: `none` models a missing key. -/
def Doc.get (d : Doc) (k : String) : Option String := List.lookup k d

/-- Python `a or b` for `a = doc.get(...)` (missing key and empty string
are falsy). -/
def pyOr (a : Option String) (b : String) : String :=
  match a with
  | some s => if s == "" then b else s
  | none => b

/-- `get_medicine_list` (src/rag_chat.py lines 36-47): product names of the
loaded catalog, empty-filtered; an exception while loading yields `[]`.
The file read is modelled by the `loadResult` argument. -/
def get_medicine_list (loadResult : Except String (List Doc)) : List String :=
  match loadResult with
  | .ok products =>
    products.filterMap (fun product =>
      match Doc.get product "product_name" with
      | some n => if n == "" then none else some n
      | none => none)
  | .error _ => []

/-- The fixed source URL (src/rag_chat.py line 53). -/
def source_url : String := "https://www.wockhardt.com/about-us/products/quality-generics/"

/-- `get_greeting_message` (src/rag_chat.py lines 49-54). As in the source,
`medicine_list_str` is computed but does not appear in the returned
f-string, which interpolates only `source_url`. -/
def get_greeting_message (loadResult : Except String (List Doc)) : String :=
  let medicine_list := get_medicine_list loadResult
  let medicine_list_str :=
    if medicine_list.isEmpty then "No medicines available" else joinWith ", " medicine_list
  "Hello! How are you? I am a POC prototype bot and for the basic demo purpose I have the mock data from the source: " ++ source_url ++ "\n\nYou may ask me any relevant stuffs."

/-- The double-quote character. -/
def dquote : Char := Char.ofNat 34

/-- The single-quote character. -/
def squote : Char := Char.ofNat 39

/-- The colon character. -/
def colonChar : Char := ':'

/-- Post-processing of the query planner's model response
(src/rag_chat.py lines 213-224): trim, strip surrounding quotes, keep the
text after the last colon when a colon is present, and fall back to the
original user message when the result is empty or shorter than 2
characters. -/
def postprocessQuery (content : String) (user_query : String) : String :=
  let rq0 := pyStrip content
  let rq1 := pyStrip (stripEnds squote (stripEnds dquote rq0))
  let rq2 :=
    if containsSub rq1.toList [colonChar] = true ∧ (splitOnChar colonChar rq1.toList).length > 1 then
      pyStrip (String.mk ((splitOnChar colonChar rq1.toList).getLastD []))
    else rq1
  if rq2 = "" ∨ rq2.length < 2 then user_query else rq2

/-- `determine_retrieval_query` (src/rag_chat.py lines 158-231). The chat
completion is modelled by `planResult`: a returned content string, or any
raised exception; on an exception the original user message is returned. -/
def determine_retrieval_query (planResult : Except String String) (user_query : String) : String :=
  match planResult with
  | .ok content => postprocessQuery content user_query
  | .error _ => user_query

/-- A conversation turn (role, content). -/
structure Turn where
  role : String
  content : String
deriving DecidableEq

/-- Network operations `generate_answer` can perform, in order. -/
inductive ChatEff where
  | planCall : ChatEff
  | retrieveCall (query : String) (k : Nat) : ChatEff
  | answerCall : ChatEff
deriving DecidableEq

/-- Results of the external services consumed by `generate_answer`: the
query-planning chat call, the answer chat call, and the catalog file read. -/
structure ChatOracles where
  planResult : Except String String
  answerResult : String
  loadResult : Except String (List Doc)

/-- The plan-retrieve-generate pipeline shared by the non-gated branches of
`generate_answer` (src/rag_chat.py lines 243-260 and 266-289): answer text
plus the network operations performed. -/
def fullPipeline (O : ChatOracles) (user_query : String) : String × List ChatEff :=
  let retrieval_query := determine_retrieval_query O.planResult user_query
  (pyStrip O.answerResult,
   [ChatEff.planCall, ChatEff.retrieveCall retrieval_query 5, ChatEff.answerCall])

/-- `generate_answer` (src/rag_chat.py lines 233-289) with its network
effect trace. The greeting gate applies when the history is exactly one
user turn and the message is a greeting; a greeting without a question
returns the canned message with no effects. -/
def generate_answer (O : ChatOracles) (user_query : String) (history : List Turn) :
    String × List ChatEff :=
  let is_first_message := history.length == 1 && ((history.headD ⟨"", ""⟩).role == "user")
  if is_first_message && is_greeting user_query then
    if has_question user_query then fullPipeline O user_query
    else (get_greeting_message O.loadResult, [])
  else fullPipeline O user_query

/-! ## vector_store.py -/

/-- Ordered field allow-list of `build_text_for_embedding`
(src/vector_store.py lines 26-30). -/
def fields_in_order : List String :=
  ["product_name", "brand_name", "therapeutic_class", "strength",
   "dosage_form", "pack_size", "composition", "indication_summary",
   "extracted_text"]

/-- Python `k.replace('_', ' ').title()` applied to a field key. -/
def titleCaseKey (k : String) : String :=
  pyTitle (String.mk (k.toList.map (fun c => if c == '_' then ' ' else c)))

/-- `build_text_for_embedding` (src/vector_store.py lines 21-41). -/
def build_text_for_embedding (doc : Doc) : String :=
  let parts := fields_in_order.filterMap (fun k =>
    match Doc.get doc k with
    | some v => if v == "" then none else some (titleCaseKey k ++ ": " ++ v)
    | none => none)
  let parts := if parts.isEmpty then [(Doc.get doc "id").getD ""] else parts
  pyTake 6000 (pyStrip (joinWith "\n" parts))

/-- The text actually sent to the embeddings API for a record:
`create_embedding` substitutes a single space for empty input
(src/vector_store.py lines 43-48). -/
def effText (doc : Doc) : String :=
  let t := build_text_for_embedding doc
  if t == "" then " " else t

/-- A Pinecone vector entry: id, values, and the metadata fields assembled
in `store_embeddings` (src/vector_store.py lines 148-160). -/
structure VecEntry where
  id : String
  values : List Int
  title : String
  source_id : String
  chunk_index : Nat
  text : String
deriving DecidableEq

/-- The vector entry built for record number `i` (src/vector_store.py
lines 141-160); `embedVec` models the embeddings API. -/
def entryOf (embedVec : String → List Int) (i : Nat) (doc : Doc) : VecEntry :=
  let uid := (Doc.get doc "id").getD ("vec_" ++ toString i)
  let title := pyOr (Doc.get doc "product_name") (pyOr (Doc.get doc "brand_name") uid)
  let source_id := (Doc.get doc "source_url").getD ""
  let text := build_text_for_embedding doc
  { id := uid, values := embedVec (effText doc), title := title,
    source_id := source_id, chunk_index := 0, text := text }

/-- External operations performed by `store_embeddings`, in order. -/
inductive Eff where
  | embed (text : String) : Eff
  | listIndexes : Eff
  | createIndex (name : String) (dim : Nat) : Eff
  | describeIndex (name : String) : Eff
  | connect (name : String) : Eff
  | loadFile (path : String) : Eff
  | upsert (batch : List VecEntry) : Eff
deriving DecidableEq

/-- Is this effect an upsert call? -/
def Eff.isUpsert : Eff → Bool
  | .upsert _ => true
  | _ => false

/-- Extract the batch of an upsert effect. -/
def upsertBatch? : Eff → Option (List VecEntry)
  | .upsert b => some b
  | _ => none

/-- The upsert batches among a trace of effects. -/
def upsertBatches (effs : List Eff) : List (List VecEntry) :=
  effs.filterMap upsertBatch?

/-- Environment and remote state consumed by `store_embeddings`:
configuration values, the remote index listing/description, the catalog
file, and the embeddings API (`embedVec`). -/
structure Env where
  apiKeyPresent : Bool
  embeddingModel : String
  indexName : String
  inputJson : String
  existingIndexes : List String
  describeDim : Nat
  fileExists : Bool
  docs : List Doc
  embedVec : String → List Int

/-- The dimension-mismatch error text raised by `store_embeddings`
(src/vector_store.py lines 115-124). -/
def mismatchMsg (indexName : String) (indexDim embedDim : Nat) (model : String) : String :=
  "Dimension mismatch!\n   Index " ++ indexName ++ " has dimension: " ++ toString indexDim ++
  "\n   Embedding model " ++ model ++ " produces dimension: " ++ toString embedDim ++
  "\n\n   Solutions:\n   1. Use a different index name (set PINECONE_INDEX_NAME in .env)\n   2. Delete the existing index and recreate it\n   3. Use an embedding model that matches the index dimension\n"

/-- All vector entries built from the catalog, in order
(src/vector_store.py lines 139-160). -/
def entriesOf (env : Env) : List VecEntry :=
  env.docs.enum.map (fun p => entryOf env.embedVec p.1 p.2)

/-- Tail of `store_embeddings` after index setup (src/vector_store.py
lines 128-169): connect, load the catalog file, embed every record, and
batch-upsert with batch size 100. -/
def storeRest (env : Env) (effs : List Eff) : List Eff × Except String Unit :=
  if env.fileExists = false then
    (effs ++ [Eff.connect env.indexName], .error ("Input JSON not found: " ++ env.inputJson))
  else
    (effs ++ [Eff.connect env.indexName, Eff.loadFile env.inputJson]
       ++ env.docs.map (fun d => Eff.embed (effText d))
       ++ (pyBatches 100 (entriesOf env)).map Eff.upsert,
     .ok ())

/-- `store_embeddings` (src/vector_store.py lines 76-169): effect trace
plus outcome (normal completion or the raised error). The embedding
dimensionality is the length of the sample embedding
(src/vector_store.py lines 86-87). -/
def store_embeddings (env : Env) : List Eff × Except String Unit :=
  if env.apiKeyPresent = false then
    ([], .error "PINECONE_API_KEY not found in environment variables")
  else if env.existingIndexes.contains env.indexName = false then
    storeRest env [Eff.embed "sample", Eff.listIndexes,
      Eff.createIndex env.indexName (env.embedVec "sample").length]
  else if env.describeDim ≠ (env.embedVec "sample").length then
    ([Eff.embed "sample", Eff.listIndexes, Eff.describeIndex env.indexName],
     .error (mismatchMsg env.indexName env.describeDim (env.embedVec "sample").length env.embeddingModel))
  else
    storeRest env [Eff.embed "sample", Eff.listIndexes, Eff.describeIndex env.indexName]

/-! ## Spec-side definitions

Definitions in this section follow the wording of individual spec claims,
to be compared with the source-derived definitions above. -/

/-- The lines "Title-cased field name: value" for the present/non-empty
allow-listed fields of a record, in allow-list order. -/
def buildLines (doc : Doc) : List String :=
  fields_in_order.filterMap (fun k =>
    match Doc.get doc k with
    | some v => if v == "" then none else some (titleCaseKey k ++ ": " ++ v)
    | none => none)

/-- C3 as stated by the spec: the first 6000 characters of the
newline-joined lines; when no allow-listed field is present, the record id
(or empty string). -/
def spec_build (doc : Doc) : String :=
  let lines := buildLines doc
  if lines.isEmpty then (Doc.get doc "id").getD ""
  else pyTake 6000 (joinWith "\n" lines)

/-- C3 amended: the source additionally strips leading/trailing whitespace
from the joined text (and from the fallback id) before truncating. -/
def spec_build_amended (doc : Doc) : String :=
  let lines := buildLines doc
  if lines.isEmpty then pyTake 6000 (pyStrip ((Doc.get doc "id").getD ""))
  else pyTake 6000 (pyStrip (joinWith "\n" lines))

/-- The case-folded, punctuation-stripped message of the greeting gate. -/
def cleanMsg (text : String) : String :=
  String.mk ((pyStrip (pyLower text)).toList.filter (fun c => c.isAlphanum || isPyWs c))

/-- C4 as stated by the spec: the substring check runs on the case-folded,
punctuation-stripped message. -/
def is_greeting_claim (text : String) : Bool :=
  greetings.any (fun g => containsSub (cleanMsg text).toList g.toList) ||
    ((pySplit (cleanMsg text)).length ≤ 3 &&
      ["hi", "hello", "hey"].any (fun g => (pySplit (cleanMsg text)).contains g))

/-- C4 amended: the substring check runs on the case-folded,
whitespace-trimmed message with punctuation retained; only the word-based
check uses the punctuation-stripped message. -/
def is_greeting_amended (text : String) : Bool :=
  greetings.any (fun g => containsSub (pyStrip (pyLower text)).toList g.toList) ||
    ((pySplit (cleanMsg text)).length ≤ 3 &&
      ["hi", "hello", "hey"].any (fun g => (pySplit (cleanMsg text)).contains g))

/-- Number of whitespace-separated words of the (lowercased, trimmed)
message, as counted by `has_question`. -/
def wordCount (text : String) : Nat := (pySplit (pyStrip (pyLower text))).length

/-- Does the raw message contain a question mark? -/
def qmarkB (text : String) : Bool := containsSub text.toList [qmarkChar]

/-- Does the lowercased message contain one of the question/request
keywords? -/
def qwordB (text : String) : Bool :=
  question_words.any (fun qw => containsSub (pyStrip (pyLower text)).toList qw.toList)

/-- Quote/whitespace cleanup of the planner response, per C6's wording. -/
def cleanupQuotes (content : String) : String :=
  pyStrip (stripEnds squote (stripEnds dquote (pyStrip content)))

/-- Does the string contain a colon? -/
def hasColon (s : String) : Bool := containsSub s.toList [colonChar]

/-- The text after the last colon (the whole string when no colon). -/
def afterLastColon (s : String) : String :=
  String.mk ((splitOnChar colonChar s.toList).getLastD [])

/-- C6's description of the planner post-processing: clean quotes and
whitespace, keep the stripped text after the last colon when a colon is
present, and fall back to the user message when shorter than 2
characters. -/
def plannerSpecPost (content user_query : String) : String :=
  let c := cleanupQuotes content
  let c2 := if hasColon c then pyStrip (afterLastColon c) else c
  if c2.length < 2 then user_query else c2

/-- The candidate query computed by the post-processing before the length
fallback. -/
def plannerCore (content : String) : String :=
  if hasColon (cleanupQuotes content) then pyStrip (afterLastColon (cleanupQuotes content))
  else cleanupQuotes content

/-! ## Concrete instances for witnesses and counterexamples -/

/-- A one-product catalog used to evaluate the greeting path. -/
def catalogCipro : List Doc := [[("product_name", "CIPROTAB")]]

/-- Concrete oracles for the first-turn greeting evaluation: the catalog
load succeeds with `catalogCipro`; the network oracles are irrelevant on
the gated path. -/
def oraclesC2 : ChatOracles :=
  { planResult := .error "network unavailable", answerResult := "ans",
    loadResult := .ok catalogCipro }

/-- A record whose product name carries a trailing space. -/
def docTrailingSpace : Doc := [("product_name", "Amox ")]

/-- An environment whose remote index exists with a dimensionality (3)
different from the embedding model's output dimensionality (2). -/
def envMismatch : Env :=
  { apiKeyPresent := true, embeddingModel := "text-embedding-3-small",
    indexName := "medical-vectors", inputJson := "wockhardt_products.json",
    existingIndexes := ["medical-vectors"], describeDim := 3,
    fileExists := true, docs := [docTrailingSpace],
    embedVec := fun _ => [0, 0] }

/-- An environment on the success path with a three-record catalog and a
fresh (absent) remote index. -/
def envBatch : Env :=
  { apiKeyPresent := true, embeddingModel := "text-embedding-3-small",
    indexName := "medical-vectors", inputJson := "wockhardt_products.json",
    existingIndexes := [], describeDim := 2,
    fileExists := true,
    docs := [[("product_name", "CIPROTAB")], [("brand_name", "ATORITIC")], []],
    embedVec := fun _ => [1] }

/-! ## Helper lemmas -/

theorem pyTake_length_le (n : Nat) (s : String) : (pyTake n s).length ≤ n := by
  show (s.toList.take n).length ≤ n
  rw [List.length_take]
  exact Nat.min_le_left _ _

theorem splitOnChar_ne_nil (c : Char) : ∀ l : List Char, splitOnChar c l ≠ [] := by
  intro l
  induction l with
  | nil => simp [splitOnChar]
  | cons a t ih =>
    simp only [splitOnChar]
    by_cases hac : a == c
    · rw [if_pos hac]; simp
    · rw [if_neg hac]
      cases h : splitOnChar c t with
      | nil => simp
      | cons x r => simp

theorem splitOnChar_length_gt_one (c : Char) :
    ∀ l : List Char, containsSub l [c] = true → 1 < (splitOnChar c l).length := by
  intro l
  induction l with
  | nil => intro h; simp [containsSub, List.isEmpty] at h
  | cons a t ih =>
    intro h
    simp only [containsSub, leadsWith, Bool.and_true, Bool.or_eq_true] at h
    simp only [splitOnChar]
    by_cases hac : a == c
    · rw [if_pos hac]
      have hne := splitOnChar_ne_nil c t
      have : 0 < (splitOnChar c t).length := List.length_pos.mpr hne
      simp only [List.length_cons]
      omega
    · rw [if_neg hac]
      have hca : (c == a) = false := by
        apply beq_eq_false_iff_ne.mpr
        intro hcc
        exact hac (beq_iff_eq.mpr hcc.symm)
      rw [hca] at h
      rcases h with h | h
      · exact absurd h (by simp)
      · have h1 := ih h
        cases hsp : splitOnChar c t with
        | nil => exact absurd hsp (splitOnChar_ne_nil c t)
        | cons x r =>
          rw [hsp] at h1
          simp only [List.length_cons] at h1 ⊢
          omega

theorem filterMap_const_none_eq_nil {α β : Type} (l : List α) :
    l.filterMap (fun _ => (none : Option β)) = [] := by
  induction l with
  | nil => rfl
  | cons a t ih => simp [List.filterMap_cons, ih]

theorem range_chunks_join {α : Type} (bs : Nat) :
    ∀ (n : Nat) (l : List α), l.length ≤ bs * n →
      ((List.range n).map (fun k => (l.drop (bs * k)).take bs)).flatten = l := by
  intro n
  induction n with
  | zero =>
    intro l hl
    simp only [Nat.mul_zero, Nat.le_zero, List.length_eq_zero] at hl
    subst hl
    simp
  | succ n ih =>
    intro l hl
    rw [List.range_succ_eq_map, List.map_cons, List.map_map, List.flatten_cons]
    have h0 : (l.drop (bs * 0)).take bs = l.take bs := by simp
    have hcongr :
        (List.range n).map ((fun k => (l.drop (bs * k)).take bs) ∘ Nat.succ) =
        (List.range n).map (fun k => ((l.drop bs).drop (bs * k)).take bs) := by
      apply List.map_congr_left
      intro k _
      simp only [Function.comp]
      rw [List.drop_drop]
      have heq : bs * Nat.succ k = bs + bs * k := by
        rw [Nat.mul_succ, Nat.add_comm]
      rw [heq]
    rw [h0, hcongr, ih (l.drop bs) (by rw [List.length_drop]; rw [Nat.mul_succ] at hl; omega)]
    exact List.take_append_drop bs l

theorem pyBatches_join {α : Type} (bs : Nat) (hbs : 0 < bs) (l : List α) :
    (pyBatches bs l).flatten = l := by
  unfold pyBatches pyRangeStep
  rw [List.map_map]
  have hfun : ((fun i => (l.drop i).take bs) ∘ fun k => bs * k) =
      (fun k => (l.drop (bs * k)).take bs) := rfl
  rw [hfun]
  apply range_chunks_join
  have hmod : (l.length + bs - 1) % bs < bs := Nat.mod_lt _ hbs
  have hdm := Nat.div_add_mod (l.length + bs - 1) bs
  omega

theorem pyBatches_length {α : Type} (bs : Nat) (l : List α) :
    (pyBatches bs l).length = (l.length + bs - 1) / bs := by
  unfold pyBatches pyRangeStep
  simp

theorem pyBatches_all_le {α : Type} (bs : Nat) (l : List α) :
    (pyBatches bs l).all (fun b => decide (b.length ≤ bs)) = true := by
  rw [List.all_eq_true]
  intro b hb
  unfold pyBatches at hb
  rcases List.mem_map.mp hb with ⟨i, _, rfl⟩
  simp only [decide_eq_true_eq]
  rw [List.length_take]
  exact Nat.min_le_left _ _

theorem upsertBatches_append (a b : List Eff) :
    upsertBatches (a ++ b) = upsertBatches a ++ upsertBatches b :=
  List.filterMap_append a b upsertBatch?

theorem upsertBatches_embeds (docs : List Doc) :
    upsertBatches (docs.map (fun d => Eff.embed (effText d))) = [] := by
  unfold upsertBatches
  rw [List.filterMap_map]
  exact filterMap_const_none_eq_nil docs

theorem upsertBatches_upserts (bs : List (List VecEntry)) :
    upsertBatches (bs.map Eff.upsert) = bs := by
  unfold upsertBatches
  rw [List.filterMap_map]
  have hcomp : (upsertBatch? ∘ Eff.upsert) = some := rfl
  rw [hcomp]
  exact List.filterMap_some bs

theorem emptyOrShort_if_eq (c2 uq : String) :
    (if c2 = "" ∨ c2.length < 2 then uq else c2) = if c2.length < 2 then uq else c2 := by
  by_cases h : c2.length < 2
  · rw [if_pos (Or.inr h), if_pos h]
  · have hne : ¬(c2 = "" ∨ c2.length < 2) := by
      rintro (he | hl)
      · subst he; exact h (by decide)
      · exact h hl
    rw [if_neg hne, if_neg h]

theorem if_and_redundant {p q : Prop} [Decidable p] [Decidable q] {α : Type} (a b : α)
    (himp : p → q) : (if p ∧ q then a else b) = if p then a else b := by
  by_cases hp : p
  · rw [if_pos ⟨hp, himp hp⟩, if_pos hp]
  · rw [if_neg (fun hand => hp hand.1), if_neg hp]

theorem plannerSpecPost_core (content uq : String) :
    plannerSpecPost content uq =
      if (plannerCore content).length < 2 then uq else plannerCore content := rfl

theorem postprocessQuery_eq_spec (content uq : String) :
    postprocessQuery content uq = plannerSpecPost content uq := by
  simp only [postprocessQuery, plannerSpecPost, cleanupQuotes, hasColon, afterLastColon]
  rw [if_and_redundant _ _ (splitOnChar_length_gt_one colonChar _)]
  exact emptyOrShort_if_eq _ _

/-! ## Claim theorems -/

/-- C1 (code bug evaluation). The spec says the canned first-turn message
lists every catalog product name and contains the fixed source URL. On a
catalog whose single product is named CIPROTAB, `get_medicine_list` does
return that name, and the canned message does contain the source URL, but
the message does not contain the product name: `get_greeting_message`
computes the medicine list yet never interpolates it. -/
theorem greeting_message_omits_catalog :
    get_medicine_list (Except.ok catalogCipro) = ["CIPROTAB"]
    ∧ containsSub (get_greeting_message (Except.ok catalogCipro)).toList source_url.toList = true
    ∧ containsSub (get_greeting_message (Except.ok catalogCipro)).toList "CIPROTAB".toList = false := by
  refine ⟨by decide, by decide, by decide⟩

/-- C2 (code bug evaluation). A first-turn `generate_answer` call with the
single message "hi" performs no network operation and returns the canned
greeting message, but that message does not list the catalog product
names (here CIPROTAB), contrary to the spec's description of it as the
catalog-listing message. -/
theorem generate_answer_hi_eval :
    (generate_answer oraclesC2 "hi" [⟨"user", "hi"⟩]).2 = []
    ∧ (generate_answer oraclesC2 "hi" [⟨"user", "hi"⟩]).1 = get_greeting_message (Except.ok catalogCipro)
    ∧ containsSub ((generate_answer oraclesC2 "hi" [⟨"user", "hi"⟩]).1).toList "CIPROTAB".toList = false := by
  refine ⟨by decide, by decide, by decide⟩

/-- C3 counterexample. For a record whose product name has a trailing
space, the source output is the stripped text, not the first 6000
characters of the newline-joined lines as the claim states. -/
theorem build_text_counterexample :
    build_text_for_embedding docTrailingSpace = "Product Name: Amox"
    ∧ spec_build docTrailingSpace = "Product Name: Amox "
    ∧ build_text_for_embedding docTrailingSpace ≠ spec_build docTrailingSpace := by
  refine ⟨by decide, by decide, by decide⟩

/-- C3 amended: for every record, `build_text_for_embedding` equals the
first 6000 characters of the whitespace-stripped newline-joined lines for
the present/non-empty allow-listed fields in order (falling back to the
stripped record id, or empty string, when none is present), and the
output never exceeds 6000 characters. -/
theorem build_text_amended_correct :
    ∀ doc : Doc,
      build_text_for_embedding doc = spec_build_amended doc
      ∧ (build_text_for_embedding doc).length ≤ 6000 := by
  intro doc
  constructor
  · simp only [build_text_for_embedding, spec_build_amended, buildLines]
    by_cases h : (fields_in_order.filterMap (fun k =>
      match Doc.get doc k with
      | some v => if v == "" then none else some (titleCaseKey k ++ ": " ++ v)
      | none => none)).isEmpty
    · simp only [h, if_pos]
      rfl
    · simp only [h]
      rfl
  · simp only [build_text_for_embedding]
    exact pyTake_length_le _ _

/-- C4 counterexample. The claim runs the greeting-substring check on the
punctuation-stripped message; the source runs it on the lowercased text
with punctuation retained, so a message whose punctuation-stripped form
contains "good morning" is classified differently. -/
theorem is_greeting_punctuation_counterexample :
    is_greeting_claim "Good. Morning to all of you" = true
    ∧ is_greeting "Good. Morning to all of you" = false := by
  refine ⟨by decide, by decide⟩

/-- C4 amended: `is_greeting` is true iff the case-folded,
whitespace-trimmed message (punctuation retained) contains a recognized
greeting word as a substring, or the punctuation-stripped message has at
most 3 words one of which is hi/hello/hey; the claim's two example
evaluations hold. -/
theorem is_greeting_amended_correct :
    (∀ text : String, is_greeting text = is_greeting_amended text)
    ∧ is_greeting "hi" = true
    ∧ is_greeting "hello there, I have a question about ciprotab" = true := by
  refine ⟨fun text => rfl, by decide, by decide⟩

/-- C7: when the query-planning chat call raises, `determine_retrieval_query`
returns the original user message unmodified; being a total function into
`String`, the planning step never propagates the error. -/
theorem determine_retrieval_query_error_fallback :
    ∀ (e user_query : String),
      determine_retrieval_query (Except.error e) user_query = user_query := by
  intro e user_query
  rfl

/-- C5: `has_question` is false whenever the message has at most 2
whitespace-separated words; otherwise it is true exactly when the message
contains a question mark, a question/request keyword, or more than 2
words (which always holds there); the claim's two example evaluations
hold. -/
theorem has_question_word_threshold :
    ∀ text : String,
      (wordCount text ≤ 2 → has_question text = false)
      ∧ (2 < wordCount text →
          has_question text = (qmarkB text || qwordB text || decide (2 < wordCount text)))
      ∧ has_question "hi" = false
      ∧ has_question "hello! what about ciprotab?" = true := by
  intro text
  refine ⟨?_, ?_, by decide, by decide⟩
  · intro h
    unfold wordCount at h
    simp only [has_question]
    rw [if_pos h]
  · intro h
    unfold wordCount at h
    simp only [has_question]
    rw [if_neg (Nat.not_le.mpr h)]
    rfl

/-- C5 witness: the theorem instantiated at the one-word message "hi" and
the three-word message "a b c". -/
theorem has_question_word_threshold_witness :
    has_question "hi" = false
    ∧ has_question "a b c" = (qmarkB "a b c" || qwordB "a b c" || decide (2 < wordCount "a b c")) :=
  ⟨(has_question_word_threshold "hi").1 (by decide),
   (has_question_word_threshold "a b c").2.1 (by decide)⟩

/-- C6: the query-planner post-processing strips surrounding quotes and
whitespace, keeps the stripped text after the last colon when a colon is
present, and falls back to the original user message when the result is
empty or shorter than 2 characters; the claim's three example
evaluations hold. -/
theorem postprocess_colon_and_fallback :
    ∀ content user_query : String,
      postprocessQuery content user_query = plannerSpecPost content user_query
      ∧ postprocessQuery "The query is: CIPROTAB" user_query = "CIPROTAB"
      ∧ postprocessQuery "\"atorvastatin\"" user_query = "atorvastatin"
      ∧ postprocessQuery "x" user_query = user_query := by
  intro content user_query
  refine ⟨postprocessQuery_eq_spec content user_query, ?_, ?_, ?_⟩
  · rw [postprocessQuery_eq_spec, plannerSpecPost_core,
      show plannerCore "The query is: CIPROTAB" = "CIPROTAB" by decide,
      if_neg (show ¬(("CIPROTAB" : String).length < 2) by decide)]
  · rw [postprocessQuery_eq_spec, plannerSpecPost_core,
      show plannerCore "\"atorvastatin\"" = "atorvastatin" by decide,
      if_neg (show ¬(("atorvastatin" : String).length < 2) by decide)]
  · rw [postprocessQuery_eq_spec, plannerSpecPost_core,
      show plannerCore "x" = "x" by decide,
      if_pos (show ("x" : String).length < 2 by decide)]

/-- C10: `generate_answer` applies the greeting gate only when the history
is exactly one entry whose role is "user": any other history (the empty
history included, with any message, "hi" in particular) runs the full
plan-retrieve-generate pipeline, and a single-user-turn greeting without
a question returns the canned message with no effects. -/
theorem generate_answer_first_turn_gate :
    ∀ (O : ChatOracles) (user_query : String) (history : List Turn),
      (¬(history.length = 1 ∧ (history.headD ⟨"", ""⟩).role = "user") →
        generate_answer O user_query history = fullPipeline O user_query)
      ∧ (history.length = 1 → (history.headD ⟨"", ""⟩).role = "user" →
          is_greeting user_query = true → has_question user_query = false →
          generate_answer O user_query history = (get_greeting_message O.loadResult, []))
      ∧ generate_answer O user_query [] = fullPipeline O user_query := by
  intro O user_query history
  refine ⟨?_, ?_, rfl⟩
  · intro h
    simp only [generate_answer]
    have hb : (history.length == 1 && ((history.headD ⟨"", ""⟩).role == "user")) = false := by
      by_cases h1 : history.length = 1
      · by_cases h2 : (history.headD ⟨"", ""⟩).role = "user"
        · exact absurd ⟨h1, h2⟩ h
        · rw [beq_eq_false_iff_ne.mpr h2, Bool.and_false]
      · rw [beq_eq_false_iff_ne.mpr h1, Bool.false_and]
    rw [hb, Bool.false_and, if_neg Bool.false_ne_true]
  · intro h1 h2 h3 h4
    simp only [generate_answer]
    rw [h1, h2, h3, h4]
    simp

/-- C10 witness: the theorem instantiated at a one-assistant-turn history
(pipeline runs even for the greeting "hi") and at the single-user-turn
history (gate applies). -/
theorem generate_answer_first_turn_gate_witness :
    generate_answer oraclesC2 "hi" [⟨"assistant", "prior"⟩] = fullPipeline oraclesC2 "hi"
    ∧ generate_answer oraclesC2 "hi" [⟨"user", "hi"⟩] = (get_greeting_message oraclesC2.loadResult, []) :=
  ⟨(generate_answer_first_turn_gate oraclesC2 "hi" [⟨"assistant", "prior"⟩]).1 (by decide),
   (generate_answer_first_turn_gate oraclesC2 "hi" [⟨"user", "hi"⟩]).2.1 rfl rfl (by decide) (by decide)⟩

/-- C8: when the configured index already exists remotely with a
dimensionality different from the one just computed from the embedding
model, `store_embeddings` raises the dimension-mismatch error (with
remediation text) and the effect trace contains no upsert call. -/
theorem store_embeddings_dim_mismatch :
    ∀ env : Env, env.apiKeyPresent = true →
      env.existingIndexes.contains env.indexName = true →
      env.describeDim ≠ (env.embedVec "sample").length →
      (store_embeddings env).2 =
        .error (mismatchMsg env.indexName env.describeDim
          (env.embedVec "sample").length env.embeddingModel)
      ∧ (store_embeddings env).1.all (fun e => !e.isUpsert) = true := by
  intro env hkey hex hdim
  have hres : store_embeddings env =
      ([Eff.embed "sample", Eff.listIndexes, Eff.describeIndex env.indexName],
       .error (mismatchMsg env.indexName env.describeDim
         (env.embedVec "sample").length env.embeddingModel)) := by
    unfold store_embeddings
    split_ifs with h1 h2
    · rw [hkey] at h1; exact Bool.noConfusion h1
    · rw [hex] at h2; exact Bool.noConfusion h2
    · rfl
  rw [hres]
  exact ⟨rfl, rfl⟩

/-- C8 witness: the theorem instantiated at an environment whose remote
index reports dimension 3 while the embedding model produces dimension 2. -/
theorem store_embeddings_dim_mismatch_witness :
    (store_embeddings envMismatch).2 =
      .error (mismatchMsg envMismatch.indexName envMismatch.describeDim
        (envMismatch.embedVec "sample").length envMismatch.embeddingModel)
    ∧ (store_embeddings envMismatch).1.all (fun e => !e.isUpsert) = true :=
  store_embeddings_dim_mismatch envMismatch rfl rfl (by decide)

/-- C9: on a run that reaches the upsert stage (API key present, catalog
file present, and no dimension mismatch), the upsert calls of
`store_embeddings` are exactly the slices `entries[i:i+100]` for
`i = 0, 100, ...`: there are ceil(N/100) of them, each carries at most
100 vector entries, their concatenation is the full entry list in order,
and there is one entry per catalog record. -/
theorem store_embeddings_batching :
    ∀ env : Env, env.apiKeyPresent = true → env.fileExists = true →
      (env.existingIndexes.contains env.indexName = false ∨
        env.describeDim = (env.embedVec "sample").length) →
      upsertBatches (store_embeddings env).1 = pyBatches 100 (entriesOf env)
      ∧ (upsertBatches (store_embeddings env).1).length = ((entriesOf env).length + 99) / 100
      ∧ (upsertBatches (store_embeddings env).1).all (fun b => decide (b.length ≤ 100)) = true
      ∧ (upsertBatches (store_embeddings env).1).flatten = entriesOf env
      ∧ (entriesOf env).length = env.docs.length := by
  intro env hkey hfile hok
  have hmain : upsertBatches (store_embeddings env).1 = pyBatches 100 (entriesOf env) := by
    unfold store_embeddings
    split_ifs with h1 h2 h3
    · rw [hkey] at h1; exact Bool.noConfusion h1
    · unfold storeRest
      split_ifs with h4
      · rw [hfile] at h4; exact Bool.noConfusion h4
      · rw [upsertBatches_append, upsertBatches_append, upsertBatches_embeds,
          upsertBatches_upserts]
        simp [upsertBatches, upsertBatch?]
    · rcases hok with hc | hd
      · exact absurd hc h2
      · exact absurd hd h3
    · unfold storeRest
      split_ifs with h4
      · rw [hfile] at h4; exact Bool.noConfusion h4
      · rw [upsertBatches_append, upsertBatches_append, upsertBatches_embeds,
          upsertBatches_upserts]
        simp [upsertBatches, upsertBatch?]
  refine ⟨hmain, ?_, ?_, ?_, ?_⟩
  · rw [hmain, pyBatches_length]
    have h99 : (entriesOf env).length + 100 - 1 = (entriesOf env).length + 99 := by omega
    rw [h99]
  · rw [hmain]
    exact pyBatches_all_le 100 _
  · rw [hmain]
    exact pyBatches_join 100 (by norm_num) _
  · unfold entriesOf
    rw [List.length_map, List.enum_length]

/-- C9 witness: the theorem instantiated at a three-record catalog with a
fresh remote index, giving a single upsert batch of three entries. -/
theorem store_embeddings_batching_witness :
    upsertBatches (store_embeddings envBatch).1 = pyBatches 100 (entriesOf envBatch)
    ∧ (upsertBatches (store_embeddings envBatch).1).length = ((entriesOf envBatch).length + 99) / 100
    ∧ (upsertBatches (store_embeddings envBatch).1).all (fun b => decide (b.length ≤ 100)) = true
    ∧ (upsertBatches (store_embeddings envBatch).1).flatten = entriesOf envBatch
    ∧ (entriesOf envBatch).length = envBatch.docs.length :=
  store_embeddings_batching envBatch rfl rfl (Or.inl rfl)
